import Mathlib

/-!
Formal model of the `hpg_grant_stw` package (matcher, scraper, writer, and the
draft-persisting filename rule of the CLI), as a shallow embedding.  Python
strings are modelled as `List Char`, Python floats as `ℚ` (every arithmetic
operation performed by the code is addition of the literals 1.0, 0.5, 0.1 and
`min` with 1.0), Python `Counter` multisets as the list of inserted tokens
(membership is key membership, counts are occurrence counts), generators and
exceptions as `Except`.
-/

/-- Python strings, modelled as their character lists. -/
abbrev Str := List Char

/-- The ASCII whitespace characters recognised by Python `str.split()` /
`str.strip()` with no argument. -/
def isPySpace (c : Char) : Bool :=
  c = ' ' || c = '\t' || c = '\n' || c = '\r' || c = '\x0b' || c = '\x0c'

/-- Python `str.lower()` (ASCII case mapping, which covers every string the
repository manipulates). -/
def pyLower (s : Str) : Str := s.map Char.toLower

/-- Python `str.strip(chars)`: remove characters of `cs` from both ends. -/
def stripChars (cs : List Char) (s : Str) : Str :=
  ((s.dropWhile (fun c => cs.contains c)).reverse.dropWhile (fun c => cs.contains c)).reverse

/-- Python `str.strip()` with no argument: remove whitespace from both ends. -/
def stripPyWs (s : Str) : Str :=
  ((s.dropWhile isPySpace).reverse.dropWhile isPySpace).reverse

/-- Helper for `pySplitWs`: accumulates the current word (reversed) while
scanning. -/
def wordsByAux (p : Char → Bool) : Str → Str → List Str
  | [], acc => if acc.isEmpty then [] else [acc.reverse]
  | c :: rest, acc =>
    if p c then
      if acc.isEmpty then wordsByAux p rest []
      else acc.reverse :: wordsByAux p rest []
    else wordsByAux p rest (c :: acc)

/-- Python `str.split()` with no argument: split on runs of whitespace and
discard empty pieces. -/
def pySplitWs (s : Str) : List Str := wordsByAux isPySpace s []

/-- The punctuation set stripped by `matcher._normalize_tokens`:
the characters of the Python literal `",.;:()[]\x7b\x7d" "\n\t"`. -/
def punctuationChars : List Char :=
  [',', '.', ';', ':', '(', ')', '[', ']', '\x7b', '\x7d', '\n', '\t']

/-- The tokens one fragment contributes in `matcher._normalize_tokens`:
lowercase, replace `/` by a space, split on whitespace, strip punctuation and
whitespace from both ends of each piece, and keep the non-empty results. -/
def fragmentTokens (raw_value : Str) : List Str :=
  ((pySplitWs ((pyLower raw_value).map (fun c => if c = '/' then ' ' else c))).map
      (fun token => stripPyWs (stripChars punctuationChars token))).filter
    (fun cleaned => !cleaned.isEmpty)

/-- `matcher._normalize_tokens`: the resulting `Counter`, represented by the
list of all inserted tokens (fragments in order). -/
def normalize_tokens (values : List Str) : List Str :=
  (values.map fragmentTokens).flatten

/-- `sum((a & b).values())` on two Counters represented as token lists: the
multiset-intersection cardinality (sum of per-token minimum counts). -/
def counterInterCard (a b : List Str) : Nat :=
  (a.dedup.map (fun t => min (a.count t) (b.count t))).sum

/-- Python `", ".join(xs)`. -/
def joinComma (xs : List Str) : Str := List.intercalate (", ".data) xs

/-- `models.NGO`. -/
structure NGO where
  id : Str
  name : Str
  region : Str
  mission : Str
  focus_areas : List Str
  annual_budget : Str
  needs : List Str
  differentiators : List Str
deriving DecidableEq

/-- `models.GrantOpportunity` (the `amount_range` tuple is a pair of free-text
bounds). -/
structure GrantOpportunity where
  id : Str
  name : Str
  funder : Str
  description : Str
  themes : List Str
  region : Str
  amount_range : Str × Str
  deadline : Str
  url : Str
deriving DecidableEq

/-- `models.AlignmentResult`. -/
structure AlignmentResult where
  ngo : NGO
  grant : GrantOpportunity
  score : ℚ
  theme_matches : List Str
  region_match : Bool
  notes : List Str
deriving DecidableEq

/-- `models.DraftGrant`. -/
structure DraftGrant where
  alignment : AlignmentResult
  content : Str
  filename : Option Str := none
deriving DecidableEq

/-- `data.DEMO_GRANTS`, the fixed built-in opportunity dataset. -/
def DEMO_GRANTS : List GrantOpportunity :=
  [{ id := "grant-usaid-wash".data
     name := "USAID WASH Innovation Fund".data
     funder := "USAID".data
     description := ("Supports scalable water, sanitation, and hygiene solutions with strong community" ++
       " engagement and sustainability plans.").data
     themes := ["water".data, "sanitation".data, "hygiene".data, "innovation".data]
     region := "East Africa".data
     amount_range := ("$250k".data, "$1M".data)
     deadline := "2024-10-15".data
     url := "https://www.usaid.gov/".data },
   { id := "grant-gates-climate".data
     name := "Gates Foundation Climate-Smart Agriculture".data
     funder := "Bill & Melinda Gates Foundation".data
     description := ("Invests in climate adaptation for smallholder farmers, including drought-resistant" ++
       " crops, digital advisory tools, and inclusive finance.").data
     themes := ["climate".data, "agriculture".data, "finance".data, "digital".data]
     region := "South Asia".data
     amount_range := ("$500k".data, "$2M".data)
     deadline := "2024-11-01".data
     url := "https://www.gatesfoundation.org/".data },
   { id := "grant-unicef-girls".data
     name := "UNICEF Girls in STEM Challenge".data
     funder := "UNICEF".data
     description := ("Funds education initiatives that improve girls\x27 access to STEM resources, teacher" ++
       " training, and community support.").data
     themes := ["education".data, "gender".data, "technology".data, "community".data]
     region := "West Africa".data
     amount_range := ("$150k".data, "$750k".data)
     deadline := "2024-12-05".data
     url := "https://www.unicef.org/".data }]

/-- `scraper.available_sources()`. -/
def available_sources : List Str := ["demo".data]

/-- The message of the `ValueError` raised by `scraper.scrape` for an
unsupported source; it interpolates the caller's original string. -/
def unsupportedSourceMessage (source : Str) : Str :=
  ("Unsupported source \x27".data) ++ source ++
    ("\x27. Available sources: ".data) ++ joinComma available_sources

/-- `scraper.scrape`: normalises the source name by lowercasing and stripping
whitespace; yields the demo dataset for `demo`, otherwise raises `ValueError`.
The generator either raises before yielding anything or yields the whole fixed
dataset, so it is modelled as an `Except` value. -/
def scrape (source : Str) : Except Str (List GrantOpportunity) :=
  let normalized := stripPyWs (pyLower source)
  if normalized = ("demo".data) then Except.ok DEMO_GRANTS
  else Except.error (unsupportedSourceMessage source)

/-- One iteration of the theme loop of `matcher.score_alignment`: when the
lowercased theme phrase is a key of the organisation token Counter, the theme
is appended to `theme_matches` and 1.0 is added to `overlap_score`. -/
def themeStep (ngo_tokens : List Str) (acc : List Str × ℚ) (theme : Str) : List Str × ℚ :=
  if pyLower theme ∈ ngo_tokens then (acc.1 ++ [theme], acc.2 + 1) else acc

/-- `matcher.score_alignment`. -/
def score_alignment (ngo : NGO) (grant : GrantOpportunity) : AlignmentResult :=
  let ngo_tokens := normalize_tokens (ngo.focus_areas ++ ngo.needs ++ [ngo.mission])
  let grant_tokens := normalize_tokens (grant.themes ++ [grant.description])
  let tm := grant.themes.foldl (themeStep ngo_tokens) ([], 0)
  let theme_matches := tm.1
  let overlap_score := tm.2
  let region_match := decide (pyLower ngo.region = pyLower grant.region)
  let region_score : ℚ := if region_match then 1/2 else 0
  let description_overlap := counterInterCard ngo_tokens grant_tokens
  let description_score : ℚ := min ((description_overlap : ℚ) * (1/10)) 1
  let score := overlap_score + region_score + description_score
  let notes : List Str :=
    (if !theme_matches.isEmpty then [("Matches themes: ".data) ++ joinComma theme_matches] else [])
    ++ (if region_match then [("Operates in the target region".data)] else [])
    ++ (if 0 < description_score then [("Mission language overlaps grant description".data)] else [])
  { ngo := ngo, grant := grant, score := score, theme_matches := theme_matches,
    region_match := region_match, notes := notes }

/-- The Boolean comparison under Python's `sorted(key=score, reverse=True)`:
a stable sort that puts higher scores first. -/
def scoreDescLe (a b : AlignmentResult) : Bool := decide (b.score ≤ a.score)

/-- The list built by the nested loops of `matcher.align` before sorting:
organisations in the outer loop, opportunities in the inner loop. -/
def alignPairs (ngos : List NGO) (grants : List GrantOpportunity) : List AlignmentResult :=
  (ngos.map (fun ngo => grants.map (fun grant => score_alignment ngo grant))).flatten

/-- `matcher.align`. -/
def align (ngos : List NGO) (grants : List GrantOpportunity) : List AlignmentResult :=
  (alignPairs ngos grants).mergeSort scoreDescLe

/-- `matcher.filter_alignments`.  `required_theme_normalized` reflects the
truthiness tests of the Python code: `required_theme.lower().strip() if
required_theme else None`, and the per-result theme check runs only under
`if required_theme_normalized:` (skipped when the normalised string is empty). -/
def filter_alignments (alignments : List AlignmentResult) (min_score : ℚ)
    (require_region_match : Bool) (required_theme : Option Str) : List AlignmentResult :=
  let required_theme_normalized : Option Str :=
    match required_theme with
    | some t => if !t.isEmpty then some (stripPyWs (pyLower t)) else none
    | none => none
  let keep : AlignmentResult → Bool := fun result =>
    if result.score < min_score then false
    else if require_region_match && !result.region_match then false
    else
      match required_theme_normalized with
      | some nt =>
        if !nt.isEmpty then decide (nt ∈ result.grant.themes.map pyLower) else true
      | none => true
  (alignments.filter keep).mergeSort scoreDescLe

/-- Python `str.split(sep)` for one separator character (keeps empty pieces,
as `"a\n\nb".split(chr(10))` does). -/
def pySplitOn (sep : Char) : Str → List Str
  | [] => [[]]
  | c :: rest =>
    if c = sep then [] :: pySplitOn sep rest
    else
      match pySplitOn sep rest with
      | [] => [[c]]
      | l :: ls => (c :: l) :: ls

/-- Longest common character prefix of two strings; folding it over a list of
indents is how `textwrap.dedent` computes its margin. -/
def commonPrefix : Str → Str → Str
  | a :: as', b :: bs => if a = b then a :: commonPrefix as' bs else []
  | _, _ => []

/-- Space or tab, the indentation characters `textwrap.dedent` considers. -/
def isIndentChar (c : Char) : Bool := c = ' ' || c = '\t'

/-- Python `textwrap.dedent`: lines consisting solely of spaces and tabs are
normalised to empty; the margin is the longest common space-and-tab leading
run of the remaining non-empty lines; that margin is removed from the start of
each line. -/
def dedent (text : Str) : Str :=
  let lines := pySplitOn '\n' text
  let lines := lines.map (fun l =>
    if !l.isEmpty && l.all isIndentChar then [] else l)
  let indents := (lines.filter (fun l => !l.isEmpty)).map
    (fun l => l.takeWhile isIndentChar)
  let margin : Str :=
    match indents with
    | [] => []
    | i :: rest => rest.foldl commonPrefix i
  List.intercalate ['\n']
    (lines.map (fun l => if margin.isPrefixOf l then l.drop margin.length else l))

/-- `writer._format_list`. -/
def format_list (values : List Str) : Str :=
  List.intercalate ['\n'] (values.map (fun value => ("- ".data) ++ value))

/-- The `cover_letter` section body of `writer.build_draft`: the interpolated
f-string, dedented and stripped. -/
def cover_letter_text (ngo : NGO) (grant : GrantOpportunity) : Str :=
  stripPyWs (dedent (
    ("\n        Dear ".data) ++ grant.funder ++ (" Team,\n\n        On behalf of ".data) ++
    ngo.name ++ (", we are pleased to submit our proposal for the\n        ".data) ++
    grant.name ++ (". Our organization operates in ".data) ++ ngo.region ++
    (" and focuses on\n        ".data) ++ joinComma ngo.focus_areas ++
    (". We see strong alignment with your\n        priorities of ".data) ++
    joinComma grant.themes ++
    (" and look forward to partnering\n        to scale our impact.\n        ".data)))

/-- The `org_summary` section body of `writer.build_draft`. -/
def org_summary_text (ngo : NGO) : Str :=
  stripPyWs (dedent (
    ("\n        ".data) ++ ngo.name ++
    (" is an HPG member organization with an annual budget of\n        ".data) ++
    ngo.annual_budget ++ (". Our mission is: \"".data) ++ ngo.mission ++
    ("\". We specialize in\n        ".data) ++ joinComma ngo.differentiators ++
    (".\n        ".data)))

/-- The `problem_statement` section body of `writer.build_draft`. -/
def problem_statement_text (ngo : NGO) : Str :=
  stripPyWs (dedent (
    ("\n        Communities in ".data) ++ ngo.region ++
    (" face persistent challenges related to\n        ".data) ++ joinComma ngo.needs ++
    (". Without investment, these barriers will limit\n        equitable progress toward the Sustainable Development Goals.\n        ".data)))

/-- The `activities` section body of `writer.build_draft`. -/
def activities_text (ngo : NGO) (grant : GrantOpportunity) : Str :=
  stripPyWs (dedent (
    ("\n        We will deploy a phased plan that builds on our existing programs:\n        - Launch an inception workshop with local partners to confirm needs.\n        - Implement core activities around ".data) ++
    joinComma ngo.focus_areas ++
    (" tailored\n          to the grant\x27s emphasis on ".data) ++ joinComma grant.themes ++
    (".\n        - Stand up monitoring systems and community feedback loops to adapt in\n          real time.\n        - Share learnings with HPG peers to multiply impact.\n        ".data)))

/-- The `measurement` section body of `writer.build_draft` (a constant). -/
def measurement_text : Str :=
  stripPyWs (dedent (
    ("\n        We will track reach, outcome adoption, and sustainability. Example KPIs\n        include number of households served, percentage improvement against the\n        baseline, and cost per beneficiary. We will generate quarterly learning\n        briefs for the funder.\n        ".data)))

/-- The `budget` section body of `writer.build_draft`. -/
def budget_text (grant : GrantOpportunity) : Str :=
  stripPyWs (dedent (
    ("\n        Requested support: ".data) ++ grant.amount_range.1 ++ (" - ".data) ++
    grant.amount_range.2 ++
    (".\n        Funds will prioritize frontline delivery, local staffing, community\n        governance, and third-party evaluation.\n        ".data)))

/-- The `attachments` section body of `writer.build_draft` (a constant list
rendered by `_format_list`). -/
def attachments_text : Str :=
  format_list
    ["Board roster and bios".data, "Audited financials".data,
     "Letters of support from community partners".data, "Workplan Gantt chart".data]

/-- `writer.SECTION_TEMPLATE` filled by `str.format`, as one concatenation:
the literal skeleton of the template with the twelve substituted values. -/
def sectionTemplateFilled (grant_name funder deadline amount_min amount_max url
    cover_letter org_summary problem_statement activities measurement budget
    attachments : Str) : Str :=
  ("\n# ".data) ++ grant_name ++
  ("\n\n**Funder:** ".data) ++ funder ++
  ("\n**Deadline:** ".data) ++ deadline ++
  ("\n**Amount Range:** ".data) ++ amount_min ++ (" - ".data) ++ amount_max ++
  ("\n**URL:** ".data) ++ url ++
  ("\n\n## Cover Letter\n".data) ++ cover_letter ++
  ("\n\n## Organizational Summary\n".data) ++ org_summary ++
  ("\n\n## Problem Statement\n".data) ++ problem_statement ++
  ("\n\n## Proposed Activities & Milestones\n".data) ++ activities ++
  ("\n\n## Measurement & Learning\n".data) ++ measurement ++
  ("\n\n## Budget Snapshot\n".data) ++ budget ++
  ("\n\n## Attachments to Prepare\n".data) ++ attachments ++
  ("\n".data)

/-- `writer.build_draft`. -/
def build_draft (alignment : AlignmentResult) : DraftGrant :=
  let ngo := alignment.ngo
  let grant := alignment.grant
  { alignment := alignment
    content := sectionTemplateFilled grant.name grant.funder grant.deadline
      grant.amount_range.1 grant.amount_range.2 grant.url
      (cover_letter_text ngo grant) (org_summary_text ngo)
      (problem_statement_text ngo) (activities_text ngo grant)
      measurement_text (budget_text grant) attachments_text }

/-- The loop of `writer.batch_build`: stops once `max_results` drafts have
been accumulated. -/
def batch_build_loop (max_results : Nat) :
    List AlignmentResult → List DraftGrant → List DraftGrant
  | [], drafts => drafts
  | alignment :: rest, drafts =>
    if max_results ≤ drafts.length then drafts
    else batch_build_loop max_results rest (drafts ++ [build_draft alignment])

/-- `writer.batch_build`. -/
def batch_build (alignments : List AlignmentResult) (max_results : Nat) : List DraftGrant :=
  batch_build_loop max_results alignments []

/-- The filename `cli._save_drafts` gives each persisted draft:
`f"[ngo id]__[grant id].md"`. -/
def save_filename (draft : DraftGrant) : Str :=
  draft.alignment.ngo.id ++ ("__".data) ++ draft.alignment.grant.id ++ (".md".data)

/-- The organisation token Counter built by `score_alignment`:
focus areas + needs + mission. -/
def orgTokens (ngo : NGO) : List Str :=
  normalize_tokens (ngo.focus_areas ++ ngo.needs ++ [ngo.mission])

/-- The opportunity token Counter built by `score_alignment`:
themes + description. -/
def oppTokens (grant : GrantOpportunity) : List Str :=
  normalize_tokens (grant.themes ++ [grant.description])

/-- Whether a theme phrase matches: its lowercased whole phrase is a key of
the organisation token Counter. -/
def themeHit (toks : List Str) (theme : Str) : Bool := decide (pyLower theme ∈ toks)

/-- The score as the specification words it (claim C1): 1.0 for each matching
theme entry, plus 0.5 for a case-insensitive region match, plus the capped
description overlap `min(0.1 * overlap, 1.0)` where `overlap` is the multiset
intersection cardinality of the two token multisets. -/
def claimedScore (ngo : NGO) (grant : GrantOpportunity) : ℚ :=
  (grant.themes.map (fun theme => if pyLower theme ∈ orgTokens ngo then (1 : ℚ) else 0)).sum
  + (if pyLower ngo.region = pyLower grant.region then (1 : ℚ)/2 else 0)
  + min ((counterInterCard (orgTokens ngo) (oppTokens grant) : ℚ) * (1/10)) 1

/-- The per-result predicate `filter_alignments` keeps (claim C4, amended):
score at least `min_score`; region match when required; and, when the
required theme lowercases-and-strips to a non-empty string, that string among
the lowercased opportunity themes. -/
def keepPred (min_score : ℚ) (require_region_match : Bool) (required_theme : Option Str)
    (result : AlignmentResult) : Bool :=
  decide (min_score ≤ result.score) &&
  (!require_region_match || result.region_match) &&
  (match required_theme with
   | none => true
   | some t =>
     let nt := stripPyWs (pyLower t)
     if nt.isEmpty then true else decide (nt ∈ result.grant.themes.map pyLower))

/-- Number of occurrences of `pat` in `s` (as a starting position count). -/
def countOccurrences (pat s : Str) : Nat :=
  (s.tails.filter (fun t => pat.isPrefixOf t)).length

/-- A small concrete organisation used by witnesses. -/
def wNGO : NGO :=
  { id := "hpg-01".data
    name := "HPG Water".data
    region := "East Africa".data
    mission := "Deliver safe water access".data
    focus_areas := ["water".data]
    annual_budget := "$1M".data
    needs := []
    differentiators := [] }

/-- A small concrete opportunity used by witnesses. -/
def wGrant : GrantOpportunity :=
  { id := "g-wash".data
    name := "WASH Fund".data
    funder := "USAID".data
    description := "clean water projects".data
    themes := ["water".data, "hygiene".data]
    region := "east africa".data
    amount_range := ("$1".data, "$2".data)
    deadline := "2024".data
    url := "u".data }

/-- A small concrete alignment result used by witnesses and counterexamples. -/
def aCE : AlignmentResult :=
  { ngo := wNGO
    grant := wGrant
    score := 1
    theme_matches := []
    region_match := false
    notes := [] }

lemma themeFold_fst (toks : List Str) (themes : List Str) (acc : List Str × ℚ) :
    (themes.foldl (themeStep toks) acc).1 = acc.1 ++ themes.filter (themeHit toks) := by
  induction themes generalizing acc with
  | nil => simp
  | cons t ts ih =>
    simp only [List.foldl_cons, List.filter_cons, themeStep, themeHit]
    by_cases h : pyLower t ∈ toks
    · simp [h, ih]
    · simp [h, ih]

lemma themeFold_snd (toks : List Str) (themes : List Str) (acc : List Str × ℚ) :
    (themes.foldl (themeStep toks) acc).2 =
      acc.2 + ((themes.filter (themeHit toks)).length : ℚ) := by
  induction themes generalizing acc with
  | nil => simp
  | cons t ts ih =>
    simp only [List.foldl_cons, List.filter_cons, themeStep, themeHit]
    by_cases h : pyLower t ∈ toks
    · simp [h, ih]
      ring
    · simp [h, ih]

/-- The score of `score_alignment`, in closed form. -/
lemma score_alignment_score (ngo : NGO) (grant : GrantOpportunity) :
    (score_alignment ngo grant).score =
      ((grant.themes.filter (themeHit (orgTokens ngo))).length : ℚ)
      + (if pyLower ngo.region = pyLower grant.region then (1 : ℚ)/2 else 0)
      + min ((counterInterCard (orgTokens ngo) (oppTokens grant) : ℚ) * (1/10)) 1 := by
  simp only [score_alignment, orgTokens, oppTokens]
  rw [themeFold_snd]
  simp

/-- The matched themes of `score_alignment`, in closed form. -/
lemma score_alignment_theme_matches (ngo : NGO) (grant : GrantOpportunity) :
    (score_alignment ngo grant).theme_matches =
      grant.themes.filter (themeHit (orgTokens ngo)) := by
  simp only [score_alignment, orgTokens]
  rw [themeFold_fst]
  simp

lemma scoreDescLe_trans : ∀ a b c : AlignmentResult,
    scoreDescLe a b = true → scoreDescLe b c = true → scoreDescLe a c = true := by
  intro a b c hab hbc
  simp only [scoreDescLe, decide_eq_true_eq] at *
  exact le_trans hbc hab

lemma scoreDescLe_total : ∀ a b : AlignmentResult,
    (scoreDescLe a b || scoreDescLe b a) = true := by
  intro a b
  simp only [scoreDescLe, Bool.or_eq_true, decide_eq_true_eq]
  exact le_total b.score a.score

/-- Stability of `mergeSort`, phrased through `filter`: elements mutually tied
under `le` keep their input order. -/
lemma mergeSort_filter_of_ties {α : Type} {le : α → α → Bool}
    (htrans : ∀ a b c : α, le a b = true → le b c = true → le a c = true)
    (htot : ∀ a b : α, (le a b || le b a) = true)
    (l : List α) (p : α → Bool) (hp : ∀ a b, p a = true → p b = true → le a b = true) :
    (l.mergeSort le).filter p = l.filter p := by
  have hpw : (l.filter p).Pairwise (fun a b => le a b = true) :=
    List.pairwise_of_forall_mem_list (fun a ha b hb =>
      hp a b (List.mem_filter.mp ha).2 (List.mem_filter.mp hb).2)
  have hsub : (l.filter p).Sublist (l.mergeSort le) :=
    List.mergeSort_stable htrans htot hpw (List.filter_sublist l)
  have hself : (l.filter p).filter p = l.filter p :=
    List.filter_eq_self.mpr (fun a ha => (List.mem_filter.mp ha).2)
  have h1 : (l.filter p).Sublist ((l.mergeSort le).filter p) :=
    hself ▸ List.Sublist.filter p hsub
  have hlen : ((l.mergeSort le).filter p).length = (l.filter p).length :=
    ((List.mergeSort_perm l le).filter p).length_eq
  exact (h1.eq_of_length hlen.symm).symm

/-- `filter_alignments` re-expressed with the claim-side predicate
`keepPred`: the two per-result checks agree pointwise. -/
lemma filter_alignments_eq (al : List AlignmentResult) (ms : ℚ) (rrm : Bool)
    (rt : Option Str) :
    filter_alignments al ms rrm rt = (al.filter (keepPred ms rrm rt)).mergeSort scoreDescLe := by
  simp only [filter_alignments]
  congr 1
  apply List.filter_congr
  intro r _
  by_cases hs : r.score < ms
  · simp [hs, keepPred, not_le.mpr hs]
  · have hs' : ms ≤ r.score := not_lt.mp hs
    by_cases hr : rrm && !r.region_match
    · simp only [if_neg hs, if_pos hr, keepPred]
      simp only [Bool.and_eq_true, Bool.not_eq_true'] at hr
      simp [hr.1, hr.2, hs']
    · simp only [if_neg hs, if_neg hr, keepPred]
      have hr' : (!rrm || r.region_match) = true := by
        cases hrr : rrm <;> cases hrm : r.region_match <;> simp_all
      cases rt with
      | none => simp [hs', hr']
      | some t =>
        by_cases ht : t.isEmpty
        · have hnt : (stripPyWs (pyLower t)).isEmpty = true := by
            have : t = [] := by
              cases t with
              | nil => rfl
              | cons c cs => simp [List.isEmpty] at ht
            subst this
            rfl
          simp [ht, hnt, hs', hr']
        · simp [ht, hs', hr']

lemma toLower_of_isPySpace {c : Char} (h : isPySpace c = true) : Char.toLower c = c := by
  simp only [isPySpace, Bool.or_eq_true, decide_eq_true_eq] at h
  rcases h with ((((h | h) | h) | h) | h) | h <;> subst h <;> decide

lemma stripPyWs_pyLower_of_space {rt : Str} (h : ∀ c ∈ rt, isPySpace c = true) :
    stripPyWs (pyLower rt) = [] := by
  have hall : ∀ c ∈ pyLower rt, isPySpace c = true := by
    intro c hc
    simp only [pyLower, List.mem_map] at hc
    obtain ⟨d, hd, rfl⟩ := hc
    rw [toLower_of_isPySpace (h d hd)]
    exact h d hd
  unfold stripPyWs
  rw [List.dropWhile_eq_nil_iff.mpr hall]
  rfl

lemma sum_map_ite_one {α : Type} (p : α → Prop) [DecidablePred p] (l : List α) :
    (l.map (fun t => if p t then (1 : ℚ) else 0)).sum =
      ((l.filter (fun t => decide (p t))).length : ℚ) := by
  induction l with
  | nil => simp
  | cons a l ih =>
    by_cases h : p a
    · simp [h, ih]
      ring
    · simp [h, ih]

lemma alignPairs_length (ngos : List NGO) (grants : List GrantOpportunity) :
    (alignPairs ngos grants).length = ngos.length * grants.length := by
  induction ngos with
  | nil => simp [alignPairs]
  | cons n ns ih =>
    simp only [alignPairs, List.map_cons, List.flatten_cons, List.length_append,
      List.length_map, List.length_cons] at ih ⊢
    rw [ih, Nat.succ_mul, Nat.add_comm]

lemma batch_build_loop_eq (max_results : Nat) (al : List AlignmentResult)
    (ds : List DraftGrant) :
    batch_build_loop max_results al ds =
      ds ++ (al.take (max_results - ds.length)).map build_draft := by
  induction al generalizing ds with
  | nil => simp [batch_build_loop]
  | cons a rest ih =>
    rw [batch_build_loop]
    by_cases h : max_results ≤ ds.length
    · rw [if_pos h, Nat.sub_eq_zero_of_le h]
      simp
    · rw [if_neg h, ih]
      have h1 : max_results - ds.length = (max_results - (ds.length + 1)) + 1 := by omega
      simp only [h1, List.take_succ_cons, List.map_cons, List.length_append,
        List.length_singleton, List.append_assoc, List.singleton_append]

/-- C1: for every organisation and opportunity, the score of
`score_alignment` is the sum the specification describes: 1.0 for each theme
entry whose lowercased whole phrase is a key of the organisation token
multiset (focus areas + needs + mission), plus 0.5 on a case-insensitive
region match, plus `min(0.1 * overlap, 1.0)` where `overlap` is the multiset
intersection cardinality of the organisation and opportunity token
multisets. -/
theorem score_alignment_C1 (ngo : NGO) (grant : GrantOpportunity) :
    (score_alignment ngo grant).score = claimedScore ngo grant := by
  rw [score_alignment_score, claimedScore, sum_map_ite_one]
  rfl

/-- C3: every alignment result of `score_alignment` has a non-negative score,
and each of its matched themes is one of the opportunity's themes. -/
theorem score_alignment_C3 (ngo : NGO) (grant : GrantOpportunity) :
    0 ≤ (score_alignment ngo grant).score ∧
    ∀ theme ∈ (score_alignment ngo grant).theme_matches, theme ∈ grant.themes := by
  constructor
  · rw [score_alignment_score]
    have h1 : (0 : ℚ) ≤ ((grant.themes.filter (themeHit (orgTokens ngo))).length : ℚ) := by
      positivity
    have h2 : (0 : ℚ) ≤ if pyLower ngo.region = pyLower grant.region then (1 : ℚ)/2 else 0 := by
      split <;> norm_num
    have h3 : (0 : ℚ) ≤ min ((counterInterCard (orgTokens ngo) (oppTokens grant) : ℚ) * (1/10)) 1 := by
      apply le_min
      · positivity
      · norm_num
    linarith
  · intro theme h
    rw [score_alignment_theme_matches] at h
    exact (List.mem_filter.mp h).1

/-- Witness for C3 at a concrete organisation and opportunity. -/
theorem score_alignment_C3_witness :
    0 ≤ (score_alignment wNGO wGrant).score ∧ ("water".data) ∈ wGrant.themes :=
  ⟨(score_alignment_C3 wNGO wGrant).1,
   (score_alignment_C3 wNGO wGrant).2 ("water".data) (by decide)⟩

/-- C10: the score of `score_alignment` is at most the number of theme
entries plus 1.5 (at most 1.0 per theme, 0.5 for the region, and a
description contribution capped at 1.0). -/
theorem score_alignment_C10 (ngo : NGO) (grant : GrantOpportunity) :
    (score_alignment ngo grant).score ≤ (grant.themes.length : ℚ) + 3/2 := by
  rw [score_alignment_score]
  have h1 : ((grant.themes.filter (themeHit (orgTokens ngo))).length : ℚ) ≤
      (grant.themes.length : ℚ) := by
    exact_mod_cast List.length_filter_le _ _
  have h2 : (if pyLower ngo.region = pyLower grant.region then (1 : ℚ)/2 else 0) ≤ 1/2 := by
    split <;> norm_num
  have h3 : min ((counterInterCard (orgTokens ngo) (oppTokens grant) : ℚ) * (1/10)) 1 ≤ (1 : ℚ) :=
    min_le_right _ _
  linarith

/-- C2: `align` returns one result per organisation-opportunity pair, sorted
non-increasing by score, and ties keep the generation order (organisations
outer loop, opportunities inner loop, stable sort): filtering the output and
the generation-order list by any fixed score gives the same list. -/
theorem align_C2 (ngos : List NGO) (grants : List GrantOpportunity) :
    (align ngos grants).length = ngos.length * grants.length ∧
    (align ngos grants).Sorted (fun a b => b.score ≤ a.score) ∧
    ∀ q : ℚ, (align ngos grants).filter (fun r => decide (r.score = q)) =
      (alignPairs ngos grants).filter (fun r => decide (r.score = q)) := by
  refine ⟨?_, ?_, ?_⟩
  · rw [align, List.length_mergeSort]
    exact alignPairs_length ngos grants
  · have h := @List.sorted_mergeSort AlignmentResult scoreDescLe scoreDescLe_trans scoreDescLe_total
      (alignPairs ngos grants)
    exact h.imp (fun hab => by simpa [scoreDescLe] using hab)
  · intro q
    exact mergeSort_filter_of_ties scoreDescLe_trans scoreDescLe_total _ _
      (fun a b ha hb => by
        simp only [decide_eq_true_eq] at ha hb
        simp [scoreDescLe, ha, hb])

/-- Counterexample to C4 as stated: with `required_theme = " water "`, the
code keeps a result whose themes contain no entry case-insensitively equal to
`" water "`, because the code first strips the surrounding whitespace. -/
theorem filter_alignments_C4_counterexample :
    filter_alignments [aCE] 0 false (some (" water ".data)) = [aCE] ∧
    aCE.grant.themes.all (fun t => !(pyLower t == pyLower (" water ".data))) = true := by
  constructor
  · rw [filter_alignments_eq]
    have hf : [aCE].filter (keepPred 0 false (some (" water ".data))) = [aCE] := by decide
    rw [hf]
    exact List.mergeSort_of_sorted (by simp)
  · decide

/-- C4 (amended): `filter_alignments` returns exactly the input results
satisfying `keepPred` — score at least `min_score`, region match when
required, and, when the required theme lowercases-and-strips to a non-empty
string, that normalised string among the lowercased opportunity themes
(no theme filtering when it normalises to empty) — sorted non-increasing by
score, and an already-descending input keeps its kept elements in order. -/
theorem filter_alignments_C4 (al : List AlignmentResult) (ms : ℚ) (rrm : Bool)
    (rt : Option Str) :
    (filter_alignments al ms rrm rt).Perm (al.filter (keepPred ms rrm rt)) ∧
    (filter_alignments al ms rrm rt).Sorted (fun a b => b.score ≤ a.score) ∧
    (al.Sorted (fun a b => b.score ≤ a.score) →
      filter_alignments al ms rrm rt = al.filter (keepPred ms rrm rt)) := by
  rw [filter_alignments_eq]
  refine ⟨List.mergeSort_perm _ _, ?_, ?_⟩
  · have h := @List.sorted_mergeSort AlignmentResult scoreDescLe scoreDescLe_trans scoreDescLe_total
      (al.filter (keepPred ms rrm rt))
    exact h.imp (fun hab => by simpa [scoreDescLe] using hab)
  · intro hsort
    apply List.mergeSort_of_sorted
    have hfs : (al.filter (keepPred ms rrm rt)).Sorted (fun a b => b.score ≤ a.score) :=
      hsort.sublist (List.filter_sublist al)
    exact hfs.imp (fun hab => by simpa [scoreDescLe] using hab)

/-- Witness for C4 at a concrete, already-sorted input. -/
theorem filter_alignments_C4_witness :
    ([aCE].Sorted (fun a b : AlignmentResult => b.score ≤ a.score)) ∧
    filter_alignments [aCE] 0 false none = [aCE].filter (keepPred 0 false none) :=
  ⟨List.sorted_singleton _, (filter_alignments_C4 [aCE] 0 false none).2.2
    (List.sorted_singleton _)⟩

/-- C5: `scrape` succeeds exactly when the normalised source name is `demo`,
yielding the fixed built-in dataset, and raises the unsupported-source error
(no partial output) for every other name. -/
theorem scrape_C5 (source : Str) :
    (stripPyWs (pyLower source) = ("demo".data) → scrape source = Except.ok DEMO_GRANTS) ∧
    (stripPyWs (pyLower source) ≠ ("demo".data) →
      scrape source = Except.error (unsupportedSourceMessage source)) := by
  constructor <;> intro h <;> simp [scrape, h]

/-- Witness for C5: the demo identifier succeeds with the built-in dataset,
any other name errors. -/
theorem scrape_C5_witness :
    scrape ("demo".data) = Except.ok DEMO_GRANTS ∧
    scrape ("usaid".data) = Except.error (unsupportedSourceMessage ("usaid".data)) :=
  ⟨(scrape_C5 ("demo".data)).1 (by decide), (scrape_C5 ("usaid".data)).2 (by decide)⟩

/-- C8: `scrape` accepts exactly the sources whose lowercased and
whitespace-stripped form is `demo`, and its error message embeds the caller's
original, unnormalised source string. -/
theorem scrape_C8 (source : Str) :
    ((scrape source).isOk = true ↔ stripPyWs (pyLower source) = ("demo".data)) ∧
    (stripPyWs (pyLower source) ≠ ("demo".data) →
      scrape source = Except.error (("Unsupported source \x27".data) ++ source ++
        ("\x27. Available sources: demo".data))) := by
  constructor
  · by_cases h : stripPyWs (pyLower source) = ("demo".data) <;>
      simp [scrape, h, Except.isOk, Except.toBool]
  · intro h
    have hj : ("\x27. Available sources: ".data) ++ joinComma available_sources =
        ("\x27. Available sources: demo".data) := by decide
    simp only [scrape, if_neg h, unsupportedSourceMessage, List.append_assoc, hj]

/-- Witness for C8: `"DEMO"` and `" demo "` are accepted; `"usaid"` is
refused with a message embedding the original string. -/
theorem scrape_C8_witness :
    (scrape ("DEMO".data)).isOk = true ∧ (scrape (" demo ".data)).isOk = true ∧
    scrape ("usaid".data) = Except.error (("Unsupported source \x27".data) ++ ("usaid".data) ++
      ("\x27. Available sources: demo".data)) :=
  ⟨(scrape_C8 ("DEMO".data)).1.mpr (by decide), (scrape_C8 (" demo ".data)).1.mpr (by decide),
   (scrape_C8 ("usaid".data)).2 (by decide)⟩

/-- C9: an empty or whitespace-only `required_theme` applies no theme filter:
`filter_alignments` behaves as with `required_theme = None`. -/
theorem filter_alignments_C9 (al : List AlignmentResult) (ms : ℚ) (rrm : Bool)
    (rt : Str) (hws : ∀ c ∈ rt, isPySpace c = true) :
    filter_alignments al ms rrm (some rt) = filter_alignments al ms rrm none := by
  rw [filter_alignments_eq, filter_alignments_eq]
  have h : stripPyWs (pyLower rt) = [] := stripPyWs_pyLower_of_space hws
  congr 1
  apply List.filter_congr
  intro r _
  simp [keepPred, h]

/-- Witness for C9 at the whitespace-only required theme `" "`. -/
theorem filter_alignments_C9_witness :
    ((" ".data).all isPySpace = true) ∧
    filter_alignments [aCE] 0 false (some (" ".data)) = filter_alignments [aCE] 0 false none :=
  ⟨by decide, filter_alignments_C9 [aCE] 0 false (" ".data) (by decide)⟩

/-- C6: `batch_build` drafts exactly the first `max_results` alignments in
input order (no re-sorting), and all of them when the input is shorter. -/
theorem batch_build_C6 (al : List AlignmentResult) (max_results : Nat) :
    batch_build al max_results = (al.take max_results).map build_draft ∧
    (al.length ≤ max_results → batch_build al max_results = al.map build_draft) := by
  have h := batch_build_loop_eq max_results al []
  simp only [List.length_nil, Nat.sub_zero, List.nil_append] at h
  unfold batch_build
  refine ⟨h, fun hle => ?_⟩
  rw [h, List.take_of_length_le hle]

/-- Witness for C6: with one alignment and a limit of five, every alignment
is drafted in order. -/
theorem batch_build_C6_witness :
    ([aCE].length ≤ 5) ∧ batch_build [aCE] 5 = [aCE].map build_draft :=
  ⟨by decide, (batch_build_C6 [aCE] 5).2 (by decide)⟩

/-- Counterexample to C7 as stated: the draft built for a concrete alignment
contains seven `## ` section blocks (Cover Letter, Organizational Summary,
Problem Statement, Proposed Activities & Milestones, Measurement & Learning,
Budget Snapshot, Attachments to Prepare), not six. -/
theorem build_draft_C7_counterexample :
    countOccurrences ("\n## ".data) (build_draft aCE).content = 7 ∧
    ¬ countOccurrences ("\n## ".data) (build_draft aCE).content = 6 := by
  constructor
  · decide
  · decide

/-- C7 (amended): the draft has, in this literal order, the
`# [opportunity name]` title, the `**Funder:**`, `**Deadline:**`,
`**Amount Range:** [low] - [high]` and `**URL:**` lines, then the seven
`## [Section]` blocks from Cover Letter through Attachments to Prepare; and
the persisted file name joins the organisation and opportunity identifiers
with a double underscore plus `.md`. -/
theorem build_draft_C7 (alignment : AlignmentResult) :
    (build_draft alignment).content =
      ("\n# ".data) ++ alignment.grant.name ++
      ("\n\n**Funder:** ".data) ++ alignment.grant.funder ++
      ("\n**Deadline:** ".data) ++ alignment.grant.deadline ++
      ("\n**Amount Range:** ".data) ++ alignment.grant.amount_range.1 ++ (" - ".data) ++
      alignment.grant.amount_range.2 ++
      ("\n**URL:** ".data) ++ alignment.grant.url ++
      ("\n\n## Cover Letter\n".data) ++ cover_letter_text alignment.ngo alignment.grant ++
      ("\n\n## Organizational Summary\n".data) ++ org_summary_text alignment.ngo ++
      ("\n\n## Problem Statement\n".data) ++ problem_statement_text alignment.ngo ++
      ("\n\n## Proposed Activities & Milestones\n".data) ++
      activities_text alignment.ngo alignment.grant ++
      ("\n\n## Measurement & Learning\n".data) ++ measurement_text ++
      ("\n\n## Budget Snapshot\n".data) ++ budget_text alignment.grant ++
      ("\n\n## Attachments to Prepare\n".data) ++ attachments_text ++ ("\n".data) ∧
    save_filename (build_draft alignment) =
      alignment.ngo.id ++ ("__".data) ++ alignment.grant.id ++ (".md".data) :=
  ⟨rfl, rfl⟩
